import Mathlib

/-
Shallow embedding of `src/app.py` (a FastAPI service exposing YouTube
download endpoints) for verification of the specification's claims.

Modelling conventions:
- The module-level mutable globals `download_status` (id → status dict),
  `cookie_test_cache` (`working_cookies`, `last_test`) and the contents of
  `DOWNLOAD_DIR` are gathered into an explicit `AppState` record that every
  embedded function threads.
- External effects are oracle parameters: the current clock (`now`), the
  random draw consumed by `random.choice` (`r`, interpreted as an index
  modulo the pool size), the listing of `COOKIES_DIR` (`cookieFiles`), the
  outcome of testing a cookie against yt-dlp (`testOk`), and the outcome of
  an actual yt-dlp fetch (`FetchOutcome`).
- FastAPI background tasks and the await point inside `download_media` are
  modelled by a small labelled transition system `step : Sys → Op → Sys`
  whose operations are the HTTP handlers, the start of a queued background
  task (everything in `download_media` up to the `await asyncio.to_thread`
  suspension) and its completion (everything after the await).
- Note on line 332 of the source: the `background_tasks.add_task(` call in
  `download_video` is written with a stray three-space indent (as written,
  CPython reports an IndentationError for the file); its statement position
  inside the function body is nonetheless unambiguous and is embedded as
  the evident four-space block.
-/

/-- A file stored in `DOWNLOAD_DIR`, with its name and modification time.
The code never reads the modification time; it is carried so that claims
about retention/staleness can be stated. -/
structure FileEntry where
  name : String
  mtime : Nat
deriving DecidableEq, Repr

/-- The three shapes of dict ever stored into `download_status` by
`download_media` (src/app.py lines 118-122, 128, 140-146, 158-162).
The error dict stores the same string under both its `error` and
`message` keys, so a single field suffices. -/
inductive StatusInfo
  | downloading (mediaType : String)
  | done (filename fmt mediaType link : String)
  | error (msg : String)
deriving DecidableEq, Repr

/-- The module-level mutable state of `src/app.py`: the `download_status`
dict, the contents of `DOWNLOAD_DIR`, and the two fields of
`cookie_test_cache`. -/
structure AppState where
  download_status : String → Option StatusInfo
  downloadDir : List FileEntry
  workingCookies : List String
  lastTest : Nat

/-- Point update of the `download_status` dict: `download_status[id] = v`. -/
def setStatus (m : String → Option StatusInfo) (videoId : String)
    (v : StatusInfo) : String → Option StatusInfo :=
  fun j => if j = videoId then some v else m j

/-- Embeds the test `fileName` matches `DOWNLOAD_DIR.glob(f"{video_id}.*")`:
under `fnmatch`, the pattern `video_id ++ ".*"` matches exactly the names
that start with `video_id` followed by a dot (`*` matches any suffix,
including one containing further dots). Glob metacharacters occurring
inside `video_id` itself are not modelled. -/
def globIdMatches (videoId fileName : String) : Bool :=
  List.isPrefixOf (videoId.data ++ ['.']) fileName.data

/-- Embeds `file.suffix[1:]` from `pathlib`: the extension after the last
dot of the file name, or the empty string when the name has no dot. -/
def lastExt (name : String) : String :=
  if name.data.contains '.' then
    String.mk ((name.data.reverse.takeWhile (fun c => c ≠ '.')).reverse)
  else ""

/-- The stem of a stored file name (everything before the last dot): since
`download_media` writes its output as `{video_id}.{ext}` (the `outtmpl`
option, src/app.py line 96), the stem identifies the external id a stored
artifact belongs to. -/
def stemOf (name : String) : String :=
  if name.data.contains '.' then
    String.mk (((name.data.reverse.dropWhile (fun c => c ≠ '.')).reverse).dropLast)
  else name

/-- Default of the `BASE_URL` environment variable (src/app.py line 20). -/
def BASE_URL : String := "https://youtube-api-0qwc.onrender.com"

/-- Default of the `API_KEY` environment variable (src/app.py line 19). -/
def VALID_API_KEY : String := "shadwo"

/-- Embeds `get_cookie_file` (src/app.py lines 29-91). Oracles: `now` is
`time.time()`, `r` is the random draw consumed by `random.choice`
(interpreted as an index modulo the pool size), `cookieFiles` is the
listing `COOKIES_DIR.glob("*.txt")`, and `testOk` tells whether the
yt-dlp probe accepts a given cookie file (either by returning formats or
by failing with a format-restriction message; both append the cookie to
the cache in the source). Returns the chosen cookie file (if any) and
the updated state. -/
def get_cookie_file (st : AppState) (now r : Nat) (cookieFiles : List String)
    (testOk : String → Bool) : Option String × AppState :=
  let st1 := if 300 < now - st.lastTest
    then { st with workingCookies := [], lastTest := now } else st
  match st1.workingCookies with
  | c :: rest =>
      (some ((c :: rest).getD (r % (c :: rest).length) c), st1)
  | [] =>
      if cookieFiles.isEmpty then (none, st1)
      else
        let working := cookieFiles.filter testOk
        let st2 := { st1 with workingCookies := working }
        match working with
        | w :: _ => (some w, st2)
        | [] =>
            match cookieFiles with
            | f :: _ => (some f, st2)
            | [] => (none, st2)

/-- The selection `get_cookie_file` makes on its rescan path (pool empty
or expired): the first cookie that tests as working, else the first
cookie file as fallback, else none. Named separately so that theorems can
state that a call after pool invalidation is decided by a fresh directory
scan and not by the previous pool or the random draw. -/
def rescanResult (cookieFiles : List String) (testOk : String → Bool) :
    Option String :=
  if cookieFiles.isEmpty then none
  else
    match cookieFiles.filter testOk with
    | w :: _ => some w
    | [] =>
        match cookieFiles with
        | f :: _ => some f
        | [] => none

/-- Error message stored when no cookie file is available
(src/app.py lines 118-122). -/
def noCookiesMsg : String :=
  "No working cookies available. Please refresh your YouTube cookies."

/-- Replacement message for a credential/signature rejection
(src/app.py line 153). -/
def cookieExpiredMsg : String :=
  "Cookie expired or invalid. Please refresh your YouTube cookies. Visit: chrome://settings/cookies or use cookie extension."

/-- The credential-rejection markers tested against the lowered error
message (src/app.py line 152). -/
def credentialSignals : List String :=
  ["signature", "invalid argument", "400", "only images"]

/-- Whether `pat` occurs as a contiguous substring of `hay`
(the Python `pat in hay` test on strings). -/
def containsSubChars (pat : List Char) : List Char → Bool
  | [] => pat.isEmpty
  | c :: rest => pat.isPrefixOf (c :: rest) || containsSubChars pat rest

/-- String form of `containsSubChars`. -/
def containsSub (hay pat : String) : Bool :=
  containsSubChars pat.data hay.data

/-- ASCII lowering of a string, embedding Python `str.lower()` on the
ASCII error messages the code matches against. -/
def lowerStr (s : String) : String :=
  String.mk (s.data.map Char.toLower)

/-- Embeds the classification test
`any(x in error_msg.lower() for x in [...])` (src/app.py line 152). -/
def isCredentialSignal (msg : String) : Bool :=
  credentialSignals.any (fun x => containsSub (lowerStr msg) x)

/-- Outcome of the external `yt_dlp.YoutubeDL(...).download([url])` call:
either it returns normally having written `written` into `DOWNLOAD_DIR`
(possibly nothing, which the source then turns into a
"File not found after download" error), or it raises with message `msg`. -/
inductive FetchOutcome
  | success (written : List FileEntry)
  | failure (msg : String)

/-- Result of the first phase of `download_media`: either the function
returned early (no cookie available), or it proceeds to the fetch with
the chosen cookie. -/
inductive BeginResult
  | earlyReturn (st : AppState)
  | proceed (st : AppState) (cookie : String)

/-- Embeds `download_media` up to its suspension point, the
`await asyncio.to_thread(...)` on line 132: cookie selection, the
no-cookie early return (lines 117-123), and the insertion of the
`downloading` status record (line 128). -/
def download_media_begin (st : AppState) (videoId : String) (now r : Nat)
    (cookieFiles : List String) (testOk : String → Bool)
    (mediaType : String) : BeginResult :=
  match get_cookie_file st now r cookieFiles testOk with
  | (none, st1) =>
      .earlyReturn
        { st1 with download_status := setStatus st1.download_status videoId (.error noCookiesMsg) }
  | (some c, st1) =>
      .proceed
        { st1 with download_status := setStatus st1.download_status videoId (.downloading mediaType) } c

/-- Embeds the except branch of `download_media` (src/app.py lines
147-162): when the error message carries a credential/signature marker the
message is replaced by `cookieExpiredMsg` and the cookie cache is cleared
(`cookie_test_cache["working_cookies"] = []`); either way an error status
record is written for the id. -/
def recordDownloadError (st : AppState) (videoId msg : String) : AppState :=
  if isCredentialSignal msg then
    { st with
        workingCookies := [],
        download_status := setStatus st.download_status videoId (.error cookieExpiredMsg) }
  else
    { st with download_status := setStatus st.download_status videoId (.error msg) }

/-- Embeds `download_media` after its suspension point (src/app.py lines
132-162): on a normal return the directory is re-globbed for
`{video_id}.*` — an empty result raises "File not found after download",
which the enclosing `except` records like any other failure — and
otherwise a `done` record pointing at the first matching file is stored;
a raising fetch goes through `recordDownloadError`. -/
def download_media_finish (st : AppState) (videoId mediaType : String)
    (outcome : FetchOutcome) : AppState :=
  match outcome with
  | .failure msg => recordDownloadError st videoId msg
  | .success written =>
      let stW := { st with downloadDir := st.downloadDir ++ written }
      match stW.downloadDir.filter (fun f => globIdMatches videoId f.name) with
      | [] => recordDownloadError stW videoId "File not found after download"
      | f :: _ =>
          let info := StatusInfo.done f.name (lastExt f.name) mediaType
            (BASE_URL ++ "/download/" ++ f.name)
          { stW with download_status := setStatus stW.download_status videoId info }

/-- The whole of `download_media` (src/app.py lines 114-162) as one
state transformer: the begin phase followed, unless it returned early, by
the finish phase. -/
def download_media (st : AppState) (videoId : String) (now r : Nat)
    (cookieFiles : List String) (testOk : String → Bool)
    (mediaType : String) (outcome : FetchOutcome) : AppState :=
  match download_media_begin st videoId now r cookieFiles testOk mediaType with
  | .earlyReturn st1 => st1
  | .proceed st1 _c => download_media_finish st1 videoId mediaType outcome

/-- The response dicts the embedded endpoints can produce. `done` covers
both the handler-built file-exists dict and the `get_response` dict for a
`done` status record (they have the same keys and values).
`unboundLocalErr` stands for the `UnboundLocalError` escaping
`download_song` when it reaches the use of the never-assigned local
`url` (see `download_song`). -/
inductive Response
  | unauthorized
  | done (videoId fmt link : String)
  | respError (videoId err msg : String)
  | respDownloading (videoId msg : String)
  | started (videoId : String)
  | notFoundResp (videoId : String)
  | unboundLocalErr
  | cleared (videoId : String)
deriving DecidableEq, Repr

/-- Embeds `get_response` (src/app.py lines 164-184). Every value stored
in `download_status` has one of the three known status strings, so the
bare `{video_id, status}` fallthrough is unreachable. -/
def get_response (videoId : String) (info : StatusInfo) : Response :=
  match info with
  | .done _fn fmt _ty link => .done videoId fmt link
  | .error msg => .respError videoId msg msg
  | .downloading _ty => .respDownloading videoId "Download in progress"

/-- Embeds the `/song/{video_id}` handler `download_song` (src/app.py
lines 273-306). The returned Bool records whether a `download_media`
background task was scheduled. The assignment
`url = f"https://www.youtube.com/watch?v={video_id}"` sits at line 295
inside the cached-status branch, after its `return`, so it is dead code;
`url` is still a local of the function, so the fresh-id path reaches the
argument list of `background_tasks.add_task(..., url, ...)` at line 300
and raises `UnboundLocalError` before any task is added. -/
def download_song (st : AppState) (videoId api : String) : Response × Bool :=
  if api ≠ VALID_API_KEY then (.unauthorized, false)
  else
    match st.downloadDir.filter (fun f => globIdMatches videoId f.name) with
    | f :: _ => (.done videoId (lastExt f.name) (BASE_URL ++ "/download/" ++ f.name), false)
    | [] =>
        match st.download_status videoId with
        | some info => (get_response videoId info, false)
        | none => (.unboundLocalErr, false)

/-- Embeds the `/video/{video_id}` handler `download_video` (src/app.py
lines 308-340): file check, then cached-status check, then scheduling of
a `download_media` background task (returned Bool) with the immediate
`downloading` response. -/
def download_video (st : AppState) (videoId api : String) : Response × Bool :=
  if api ≠ VALID_API_KEY then (.unauthorized, false)
  else
    match st.downloadDir.filter (fun f => globIdMatches videoId f.name) with
    | f :: _ => (.done videoId (lastExt f.name) (BASE_URL ++ "/download/" ++ f.name), false)
    | [] =>
        match st.download_status videoId with
        | some info => (get_response videoId info, false)
        | none => (.started videoId, true)

/-- Embeds the `/status/{video_id}` handler `check_status` (src/app.py
lines 342-363): stored-file check first, then `download_status` lookup,
then the not-found response. -/
def check_status (st : AppState) (videoId : String) : Response :=
  match st.downloadDir.filter (fun f => globIdMatches videoId f.name) with
  | f :: _ => .done videoId (lastExt f.name) (BASE_URL ++ "/download/" ++ f.name)
  | [] =>
      match st.download_status videoId with
      | some info => get_response videoId info
      | none => .notFoundResp videoId

/-- Embeds the `DELETE /clear/{video_id}` handler `clear_cache`
(src/app.py lines 379-391): key check, conditional removal of the status
record, unlink of every file matching the glob `{video_id}.*`, and the
unconditional `cleared` response. -/
def clear_cache (st : AppState) (videoId api : String) : Response × AppState :=
  if api ≠ VALID_API_KEY then (.unauthorized, st)
  else
    (.cleared videoId,
      { st with
          download_status := fun j => if j = videoId then none else st.download_status j,
          downloadDir := st.downloadDir.filter (fun f => !(globIdMatches videoId f.name)) })

/-- Embeds the `startup` event handler (src/app.py lines 411-422): it
lists the cookie directory and prints diagnostics, mutates no state and
registers no periodic task. -/
def startup (st : AppState) : AppState := st

/-- Modelled from the spec: the identifier allow-list pattern (letters,
digits, underscore, hyphen) said to gate `requestDownload`; the code
performs no such check, so this definition exists only to state claims
about ids that fail the pattern. -/
def isIdChar (c : Char) : Bool := c.isAlphanum || c = '_' || c = '-'

/-- Modelled from the spec: an id matches the allow-list pattern when all
its characters are allowed and its length lies in a fixed window
(1 to 64 here; the spec fixes no concrete bounds). -/
def matchesIdPattern (s : String) : Bool :=
  s.data.all isIdChar && decide (1 ≤ s.length) && decide (s.length ≤ 64)

/-- Process state for the labelled transition system: the shared module
state, the queue of `download_media` background tasks FastAPI has
accepted but not yet started (`background_tasks.add_task` defers the task
until after the response is sent), and the multiset (as a list) of ids
whose `download_media` invocation is between its start and the completion
of its awaited fetch. -/
structure Sys where
  app : AppState
  pending : List String
  running : List String

/-- The operations of the embedded service: one per HTTP handler that
touches state, plus the start and the completion of a queued
`download_media` background task, the startup event and the two
cookie-cache-clearing endpoints. Oracle data (clock, random draw,
cookie-directory listing, probe results, fetch outcome) is carried on the
operation. -/
inductive Op
  | songReq (videoId api : String)
  | videoReq (videoId api : String)
  | statusReq (videoId : String)
  | clearReq (videoId api : String)
  | startupEvent
  | refreshCookiesReq (api : String) (now r : Nat) (cookieFiles : List String)
      (testOk : String → Bool)
  | testCookiesReq
  | taskStart (now r : Nat) (cookieFiles : List String) (testOk : String → Bool)
  | taskFinish (i : Nat) (outcome : FetchOutcome)

/-- One step of the embedded service. `songReq`/`videoReq` run the
handler and enqueue a background task when the handler schedules one;
`statusReq` is read-only; `clearReq` applies `clear_cache`;
`startupEvent` applies `startup`; `refreshCookiesReq` embeds
`refresh_cookies` (src/app.py lines 393-409: key check, cache reset,
immediate `get_cookie_file` call for its cache side effects);
`testCookiesReq` embeds the state effect of `test_cookies`
(src/app.py line 263: the cache is cleared); `taskStart` dequeues the
oldest pending task and runs `download_media_begin`; `taskFinish`
completes the `i`-th running fetch with `download_media_finish`. -/
def step (sys : Sys) (op : Op) : Sys :=
  match op with
  | .songReq vid api =>
      let r := download_song sys.app vid api
      if r.2 then { sys with pending := sys.pending ++ [vid] } else sys
  | .videoReq vid api =>
      let r := download_video sys.app vid api
      if r.2 then { sys with pending := sys.pending ++ [vid] } else sys
  | .statusReq _vid => sys
  | .clearReq vid api => { sys with app := (clear_cache sys.app vid api).2 }
  | .startupEvent => { sys with app := startup sys.app }
  | .refreshCookiesReq api now r cookieFiles testOk =>
      if api = VALID_API_KEY then
        let st1 := { sys.app with workingCookies := [], lastTest := 0 }
        { sys with app := (get_cookie_file st1 now r cookieFiles testOk).2 }
      else sys
  | .testCookiesReq => { sys with app := { sys.app with workingCookies := [] } }
  | .taskStart now r cookieFiles testOk =>
      match sys.pending with
      | [] => sys
      | vid :: rest =>
          match download_media_begin sys.app vid now r cookieFiles testOk "video" with
          | .earlyReturn st1 => { sys with app := st1, pending := rest }
          | .proceed st1 _c =>
              { sys with app := st1, pending := rest, running := sys.running ++ [vid] }
  | .taskFinish i outcome =>
      match sys.running.get? i with
      | none => sys
      | some vid =>
          { sys with
              app := download_media_finish sys.app vid "video" outcome,
              running := sys.running.eraseIdx i }

/-- The empty module state: no status records, no stored files, empty
cookie cache. -/
def stEmpty : AppState :=
  { download_status := fun _ => none, downloadDir := [], workingCookies := [], lastTest := 0 }

/-- The empty process state. -/
def sysEmpty : Sys := { app := stEmpty, pending := [], running := [] }

/-- The state carried by either constructor of `BeginResult`. -/
def BeginResult.state : BeginResult → AppState
  | .earlyReturn st => st
  | .proceed st _ => st

/-- A module state whose registry marks id `x` as downloading (Running). -/
def regRunningX : AppState :=
  { stEmpty with download_status := setStatus stEmpty.download_status "x" (.downloading "video") }

/-- A cookie cache holding the fixed two-element pool used to exercise
rotation claims, freshly tested at time 100. -/
def stC2 : AppState :=
  { stEmpty with workingCookies := ["a.txt", "b.txt"], lastTest := 100 }

/-- A module state holding one stored artifact for id `vid1`. -/
def stC3 : AppState := { stEmpty with downloadDir := [⟨"vid1.mp4", 1⟩] }

/-- Process state over `stC3`. -/
def sysC3 : Sys := { app := stC3, pending := [], running := [] }

/-- Two requests for the same fresh id followed by the start of both
queued background tasks (clock 1000, one cookie file that tests fine). -/
def opsC1 : List Op :=
  [ .videoReq "x" "shadwo", .videoReq "x" "shadwo",
    .taskStart 1000 0 ["c.txt"] (fun _ => true),
    .taskStart 1000 0 ["c.txt"] (fun _ => true) ]

/-- Five requests for five distinct fresh ids followed by the start of
all five queued background tasks. -/
def opsC4 : List Op :=
  [ .videoReq "a" "shadwo", .videoReq "b" "shadwo", .videoReq "c" "shadwo",
    .videoReq "d" "shadwo", .videoReq "e" "shadwo",
    .taskStart 1000 0 ["c.txt"] (fun _ => true),
    .taskStart 1000 0 ["c.txt"] (fun _ => true),
    .taskStart 1000 0 ["c.txt"] (fun _ => true),
    .taskStart 1000 0 ["c.txt"] (fun _ => true),
    .taskStart 1000 0 ["c.txt"] (fun _ => true) ]

/-- A module state holding one stored artifact whose name fails the
identifier allow-list pattern. -/
def stC5 : AppState := { stEmpty with downloadDir := [⟨"@@@.mp4", 1⟩] }

/-- A module state where id `v` has both a stored artifact and a registry
record, to exercise the precedence of the stored-file check. -/
def stC6 : AppState :=
  { stEmpty with
      downloadDir := [⟨"v.mp4", 1⟩],
      download_status := setStatus stEmpty.download_status "v" (.downloading "video") }

/-- A process state holding a stored artifact with modification time 0,
far older than any retention threshold by the times used in `traceC7`. -/
def sysStale : Sys :=
  { app := { stEmpty with downloadDir := [⟨"old.mp4", 0⟩] }, pending := [], running := [] }

/-- A run of the service long after the artifact of `sysStale` went
stale: startup, a status poll, a request for another id, and that
request's fetch started (at clock 1000000) and completed. -/
def traceC7 : List Op :=
  [ .startupEvent, .statusReq "old", .videoReq "w" "shadwo",
    .taskStart 1000000 0 ["c.txt"] (fun _ => true),
    .taskFinish 0 (.failure "network timeout") ]

/-- A module state holding artifacts for the two distinct ids `a` and
`a.b` (the second reachable because no identifier validation exists). -/
def stC10 : AppState :=
  { stEmpty with downloadDir := [⟨"a.mp4", 10⟩, ⟨"a.b.mp4", 20⟩] }

theorem download_song_snd_false (st : AppState) (vid api : String) :
    (download_song st vid api).2 = false := by
  unfold download_song
  split
  · rfl
  · split
    · rfl
    · split <;> rfl

theorem step_songReq (sys : Sys) (vid api : String) :
    step sys (.songReq vid api) = sys := by
  simp [step, download_song_snd_false]

theorem get_cookie_file_downloadDir (st : AppState) (now r : Nat)
    (files : List String) (t : String → Bool) :
    ((get_cookie_file st now r files t).2).downloadDir = st.downloadDir := by
  unfold get_cookie_file
  dsimp only
  repeat' (first | rfl | split)

theorem download_media_begin_dir (st : AppState) (vid : String) (now r : Nat)
    (files : List String) (t : String → Bool) (ty : String) :
    (BeginResult.state (download_media_begin st vid now r files t ty)).downloadDir
      = st.downloadDir := by
  have hdir := get_cookie_file_downloadDir st now r files t
  unfold download_media_begin
  rcases hgc : get_cookie_file st now r files t with ⟨o, st1⟩
  rw [hgc] at hdir
  cases o <;> simpa [BeginResult.state] using hdir

theorem recordDownloadError_dir (st : AppState) (vid msg : String) :
    (recordDownloadError st vid msg).downloadDir = st.downloadDir := by
  unfold recordDownloadError
  split <;> rfl

theorem download_media_finish_mem (st : AppState) (vid ty : String)
    (out : FetchOutcome) (f : FileEntry) (hmem : f ∈ st.downloadDir) :
    f ∈ (download_media_finish st vid ty out).downloadDir := by
  cases out with
  | failure msg =>
      simp only [download_media_finish]
      rw [recordDownloadError_dir]
      exact hmem
  | success written =>
      simp only [download_media_finish]
      split
      · rw [recordDownloadError_dir]
        exact List.mem_append_left _ hmem
      · exact List.mem_append_left _ hmem

theorem get_cookie_file_empty_pool (st : AppState) (now r : Nat)
    (files : List String) (t : String → Bool) (h : st.workingCookies = []) :
    (get_cookie_file st now r files t).1 = rescanResult files t := by
  cases files with
  | nil =>
      by_cases hex : 300 < now - st.lastTest <;>
        simp [get_cookie_file, rescanResult, hex, h]
  | cons f0 fs =>
      by_cases hex : 300 < now - st.lastTest <;>
        cases hfil : List.filter t (f0 :: fs) <;>
          simp [get_cookie_file, rescanResult, hex, h, hfil]

/-- C6: `check_status` performs its checks in order: a stored artifact is
authoritative and yields the completed view even when a registry record
also exists; with no stored artifact the registry record's view is
returned; with neither, the not-found response. -/
theorem check_status_order (st : AppState) (videoId : String) :
    (∀ f fs, st.downloadDir.filter (fun e => globIdMatches videoId e.name) = f :: fs →
      check_status st videoId =
        .done videoId (lastExt f.name) (BASE_URL ++ "/download/" ++ f.name)) ∧
    (st.downloadDir.filter (fun e => globIdMatches videoId e.name) = [] →
      ∀ info, st.download_status videoId = some info →
        check_status st videoId = get_response videoId info) ∧
    (st.downloadDir.filter (fun e => globIdMatches videoId e.name) = [] →
      st.download_status videoId = none →
        check_status st videoId = .notFoundResp videoId) := by
  refine ⟨?_, ?_, ?_⟩
  · intro f fs hf
    unfold check_status
    rw [hf]
  · intro hf info hinfo
    unfold check_status
    rw [hf, hinfo]
  · intro hf hnone
    unfold check_status
    rw [hf, hnone]

/-- Witness for C6 at a state where id `v` has both a stored artifact and
a downloading registry record: the stored artifact wins. -/
theorem check_status_order_witness :
    check_status stC6 "v" = Response.done "v" "mp4" (BASE_URL ++ "/download/v.mp4") :=
  (check_status_order stC6 "v").1 ⟨"v.mp4", 1⟩ [] rfl

/-- C9: for an id with no stored file and no status record, `download_song`
reaches the read of the local `url` — whose only assignment sits after the
`return` of the cached-status branch and is therefore dead — and raises
`UnboundLocalError`; no fetch task is scheduled and the process state,
including the registry, is unchanged. -/
theorem song_request_unbound_url (sys : Sys) (videoId api : String)
    (hapi : api = VALID_API_KEY)
    (hfile : sys.app.downloadDir.filter (fun e => globIdMatches videoId e.name) = [])
    (hreg : sys.app.download_status videoId = none) :
    download_song sys.app videoId api = (.unboundLocalErr, false) ∧
    step sys (.songReq videoId api) = sys := by
  subst hapi
  constructor
  · unfold download_song
    rw [if_neg (by simp), hfile, hreg]
  · exact step_songReq sys videoId VALID_API_KEY

/-- Witness for C9 at the empty state. -/
theorem song_request_unbound_url_witness :
    download_song sysEmpty.app "v123" VALID_API_KEY = (Response.unboundLocalErr, false) ∧
    step sysEmpty (Op.songReq "v123" VALID_API_KEY) = sysEmpty :=
  song_request_unbound_url sysEmpty "v123" VALID_API_KEY rfl rfl rfl

/-- C8: a fetch failure whose message carries a credential/signature
marker is recorded as the cookie-expired error (the code's rendering of a
CredentialInvalid classification) and empties the cached cookie pool, so
every later `get_cookie_file` call selects by rescanning the cookie
directory — independent of the invalidated pool and of the random draw —
rather than reusing a cached artifact. -/
theorem credential_failure_invalidates_pool (st : AppState) (videoId : String)
    (now r : Nat) (cookieFiles : List String) (testOk : String → Bool)
    (msg : String)
    (hc : (get_cookie_file st now r cookieFiles testOk).1.isSome = true)
    (hsig : isCredentialSignal msg = true) (st1 : AppState)
    (hst1 : st1 = download_media st videoId now r cookieFiles testOk "video"
      (.failure msg)) :
    st1.download_status videoId = some (.error cookieExpiredMsg) ∧
    st1.workingCookies = [] ∧
    ∀ now2 r2 files2 t2,
      (get_cookie_file st1 now2 r2 files2 t2).1 = rescanResult files2 t2 := by
  rcases hgc : get_cookie_file st now r cookieFiles testOk with ⟨o, stc⟩
  rw [hgc] at hc
  cases o with
  | none => simp at hc
  | some c =>
      have hst2 : st1 = recordDownloadError
          { stc with download_status :=
              setStatus stc.download_status videoId (StatusInfo.downloading "video") }
          videoId msg := by
        rw [hst1]
        unfold download_media download_media_begin
        rw [hgc]
        rfl
      unfold recordDownloadError at hst2
      rw [if_pos hsig] at hst2
      subst hst2
      refine ⟨by simp [setStatus], rfl, ?_⟩
      intro now2 r2 files2 t2
      exact get_cookie_file_empty_pool _ now2 r2 files2 t2 rfl

/-- Witness for C8: a 400-class failure on a state with a cached
two-cookie pool empties the pool. -/
theorem credential_failure_invalidates_pool_witness :
    (download_media stC2 "x" 100 0 [] (fun _ => false) "video"
        (FetchOutcome.failure "HTTP Error 400: Bad Request")).workingCookies = [] :=
  (credential_failure_invalidates_pool stC2 "x" 100 0 [] (fun _ => false)
    "HTTP Error 400: Bad Request" (by decide) (by decide) _ rfl).2.1

/-- C1 counterexample: two requests for the same fresh id both schedule a
background fetch, because the registry record for an id is created only
when its background task starts running (inside `download_media`), not
when the handler schedules it; once both queued tasks start, two fetch
operations for id `x` are in flight at the same time, refuting
at-most-one-fetch-in-flight per id. -/
theorem two_requests_double_schedule :
    (List.foldl step sysEmpty opsC1).running = ["x", "x"] := by decide

/-- C1 (amended): the registry is a map keyed by id, so at most one record
per id exists, and a `/video` request for an id that already has a stored
file or a registry record (downloading, done or error) returns the
existing state and schedules no second fetch; however, the record is
created only when the background task starts, so two requests racing on a
fresh id can each schedule a fetch and two fetches for that id can be in
flight simultaneously. -/
theorem video_request_dedup (st : AppState) (videoId api : String)
    (hapi : api = VALID_API_KEY) :
    (∀ f fs, st.downloadDir.filter (fun e => globIdMatches videoId e.name) = f :: fs →
      download_video st videoId api =
        (.done videoId (lastExt f.name) (BASE_URL ++ "/download/" ++ f.name), false)) ∧
    (st.downloadDir.filter (fun e => globIdMatches videoId e.name) = [] →
      ∀ info, st.download_status videoId = some info →
        download_video st videoId api = (get_response videoId info, false)) := by
  subst hapi
  constructor
  · intro f fs hf
    unfold download_video
    rw [if_neg (by simp), hf]
  · intro hf info hinfo
    unfold download_video
    rw [if_neg (by simp), hf, hinfo]

/-- Witness for C1 at a state whose registry marks `x` as downloading:
the request returns the existing downloading view and schedules nothing. -/
theorem video_request_dedup_witness :
    download_video regRunningX "x" VALID_API_KEY =
      (Response.respDownloading "x" "Download in progress", false) :=
  (video_request_dedup regRunningX "x" VALID_API_KEY rfl).2 rfl
    (StatusInfo.downloading "video") rfl

/-- C2 counterexample: with the fixed two-element pool of `stC2` and no
refresh boundary crossed, two consecutive selections whose random draws
both pick index 0 return `a.txt` twice and `b.txt` never: over N = 2
calls on a pool of K = 2, the artifacts are not each returned N/K = 1
times, and the order is not round-robin. -/
theorem cookie_choice_can_repeat :
    (get_cookie_file stC2 100 0 [] (fun _ => false)).1 = some "a.txt" ∧
    (get_cookie_file stC2 100 0 [] (fun _ => false)).2 = stC2 ∧
    (get_cookie_file (get_cookie_file stC2 100 0 [] (fun _ => false)).2
        101 0 [] (fun _ => false)).1 = some "a.txt" :=
  ⟨rfl, rfl, rfl⟩

/-- C2 (amended): credential selection among cached working cookies is a
random draw (`random.choice`), not round-robin over a stable index: the
returned artifact is the pool element at the call's random draw modulo
the pool size, and the whole state — in particular the pool and any
would-be rotation index — is unchanged by the call. -/
theorem cookie_choice_is_random_indexed (st : AppState) (now r : Nat)
    (files : List String) (t : String → Bool) (c : String) (rest : List String)
    (hw : st.workingCookies = c :: rest)
    (hfresh : now - st.lastTest ≤ 300) :
    get_cookie_file st now r files t =
      (some ((c :: rest).getD (r % (c :: rest).length) c), st) := by
  unfold get_cookie_file
  dsimp only
  rw [if_neg (by omega), hw]

/-- Witness for C2: with the pool of `stC2` a draw of 3 selects index
3 mod 2 = 1, returning `b.txt` and leaving the state unchanged. -/
theorem cookie_choice_is_random_indexed_witness :
    get_cookie_file stC2 100 3 [] (fun _ => false) = (some "b.txt", stC2) :=
  cookie_choice_is_random_indexed stC2 100 3 [] (fun _ => false) "a.txt" ["b.txt"]
    rfl (by decide)

/-- C3 counterexample: with stored artifact `vid1.mp4`, three `/song`
calls from the same caller leave the process state unchanged, so a
fourth call within any window returns the same successful response as
the first — it is admitted, not rejected with a RateLimited error (no
such rejection exists anywhere in the code). -/
theorem fourth_call_not_rate_limited :
    List.foldl step sysC3 (List.replicate 3 (Op.songReq "vid1" VALID_API_KEY)) = sysC3 ∧
    download_song sysC3.app "vid1" VALID_API_KEY =
      (Response.done "vid1" "mp4" (BASE_URL ++ "/download/vid1.mp4"), false) :=
  ⟨rfl, rfl⟩

/-- C3 (amended): no per-caller rate limiting exists: the only synchronous
admission check is the API-key comparison, the service keeps no per-caller
request window, request history leaves the state unchanged, and a call
after any number of prior same-identity calls returns exactly what the
first call returned. -/
theorem no_rate_limiting (sys : Sys) (videoId api : String) (n : Nat) :
    List.foldl step sys (List.replicate n (Op.songReq videoId api)) = sys ∧
    download_song
        (List.foldl step sys (List.replicate n (Op.songReq videoId api))).app
        videoId api
      = download_song sys.app videoId api := by
  have h : List.foldl step sys (List.replicate n (Op.songReq videoId api)) = sys := by
    induction n with
    | zero => rfl
    | succ k ih =>
        rw [List.replicate_succ, List.foldl_cons, step_songReq]
        exact ih
  exact ⟨h, by rw [h]⟩

/-- C4 counterexample: five simultaneous distinct-id requests are all
scheduled and all five fetches start before any finishes, so five
fetches run concurrently — more than the claimed cap of 2; no
concurrency cap exists in the code. -/
theorem five_concurrent_fetches :
    (List.foldl step sysEmpty opsC4).running = ["a", "b", "c", "d", "e"] ∧
    2 < (List.foldl step sysEmpty opsC4).running.length := by decide

/-- C4 (amended): there is no concurrency gate: starting a queued
background task succeeds whenever a cookie is available, with no bound
consulted — the set of concurrently running fetches grows by one
regardless of how many are already running, so the count is limited only
by the number of scheduled tasks. -/
theorem task_start_unbounded (sys : Sys) (vid : String) (rest : List String)
    (now r : Nat) (files : List String) (t : String → Bool) (c : String)
    (hp : sys.pending = vid :: rest)
    (hc : (get_cookie_file sys.app now r files t).1 = some c) :
    (step sys (.taskStart now r files t)).running = sys.running ++ [vid] ∧
    (step sys (.taskStart now r files t)).pending = rest := by
  rcases hgc : get_cookie_file sys.app now r files t with ⟨o, stc⟩
  rw [hgc] at hc
  cases o with
  | none => simp at hc
  | some c0 =>
      simp only [step]
      rw [hp]
      dsimp only
      unfold download_media_begin
      rw [hgc]
      exact ⟨rfl, rfl⟩

/-- Witness for C4: with two fetches already running, starting a queued
third task yields three running concurrently — beyond the claimed cap
of 2. -/
theorem task_start_unbounded_witness :
    (step { app := stC2, pending := ["z"], running := ["p", "q"] }
        (Op.taskStart 100 0 [] (fun _ => false))).running = ["p", "q", "z"] :=
  (task_start_unbounded { app := stC2, pending := ["z"], running := ["p", "q"] }
    "z" [] 100 0 [] (fun _ => false) "a.txt" rfl rfl).1

/-- C5 counterexample: id `@@@` fails the allow-list pattern, yet the
request for it is not rejected with an InvalidInput error — its stored
file is served as a success. -/
theorem invalid_id_served_not_rejected :
    matchesIdPattern "@@@" = false ∧
    download_song stC5 "@@@" VALID_API_KEY =
      (Response.done "@@@" "mp4" (BASE_URL ++ "/download/@@@.mp4"), false) :=
  ⟨by decide, rfl⟩

/-- C5 (amended): `download_song` performs no identifier validation: an id
failing the allow-list pattern is processed exactly like any other — a
matching stored file is served, otherwise a cached record's view is
returned, otherwise the handler raises `UnboundLocalError`; the handler
never writes the registry for any id, so no Job record is created, but by
omission rather than by synchronous rejection. -/
theorem no_id_validation (sys : Sys) (videoId api : String)
    (_hbad : matchesIdPattern videoId = false) (hapi : api = VALID_API_KEY) :
    (∀ f fs, sys.app.downloadDir.filter (fun e => globIdMatches videoId e.name) = f :: fs →
      download_song sys.app videoId api =
        (.done videoId (lastExt f.name) (BASE_URL ++ "/download/" ++ f.name), false)) ∧
    (sys.app.downloadDir.filter (fun e => globIdMatches videoId e.name) = [] →
      ∀ info, sys.app.download_status videoId = some info →
        download_song sys.app videoId api = (get_response videoId info, false)) ∧
    (sys.app.downloadDir.filter (fun e => globIdMatches videoId e.name) = [] →
      sys.app.download_status videoId = none →
        download_song sys.app videoId api = (.unboundLocalErr, false)) ∧
    step sys (.songReq videoId api) = sys := by
  subst hapi
  refine ⟨?_, ?_, ?_, step_songReq sys videoId VALID_API_KEY⟩
  · intro f fs hf
    unfold download_song
    rw [if_neg (by simp), hf]
  · intro hf info hinfo
    unfold download_song
    rw [if_neg (by simp), hf, hinfo]
  · intro hf hnone
    unfold download_song
    rw [if_neg (by simp), hf, hnone]

/-- Witness for C5: the malformed id `###` with no stored file and no
record reaches the unbound-local crash instead of an InvalidInput
rejection. -/
theorem no_id_validation_witness :
    download_song stEmpty "###" VALID_API_KEY = (Response.unboundLocalErr, false) :=
  (no_id_validation sysEmpty "###" VALID_API_KEY (by decide) rfl).2.2.1 rfl rfl

/-- C7 counterexample: the artifact `old.mp4` with modification time 0 is
still stored after startup and a run of service activity reaching clock
1000000 — far beyond any retention threshold (for instance 1800 seconds);
nothing in the process ever deletes it, because no retention sweeper
exists. -/
theorem stale_artifact_survives :
    (⟨"old.mp4", 0⟩ : FileEntry) ∈ (List.foldl step sysStale traceC7).app.downloadDir := by
  decide

/-- C7 (amended): no retention sweeper exists: the startup handler only
logs, no periodic task is registered, and no operation of the service
deletes a stored artifact — whatever its age — except an explicit
authorized `/clear` request whose glob matches the artifact's name. -/
theorem files_deleted_only_by_clear (sys : Sys) (op : Op) (f : FileEntry)
    (hmem : f ∈ sys.app.downloadDir)
    (hop : ∀ vid api, op = Op.clearReq vid api → api = VALID_API_KEY →
      globIdMatches vid f.name = false) :
    f ∈ (step sys op).app.downloadDir := by
  cases op with
  | songReq vid api =>
      rw [step_songReq]
      exact hmem
  | videoReq vid api =>
      simp only [step]
      split
      · exact hmem
      · exact hmem
  | statusReq vid => exact hmem
  | clearReq vid api =>
      simp only [step]
      unfold clear_cache
      split
      · exact hmem
      · rename_i hne
        have hv : api = VALID_API_KEY := not_not.mp hne
        have hglob : globIdMatches vid f.name = false := hop vid api rfl hv
        refine List.mem_filter.mpr ⟨hmem, ?_⟩
        rw [hglob]
        rfl
  | startupEvent => exact hmem
  | refreshCookiesReq api now r files t =>
      simp only [step]
      split
      · rw [get_cookie_file_downloadDir]
        exact hmem
      · exact hmem
  | testCookiesReq => exact hmem
  | taskStart now r files t =>
      simp only [step]
      cases hp : sys.pending with
      | nil => exact hmem
      | cons vid rest =>
          dsimp only
          have hd := download_media_begin_dir sys.app vid now r files t "video"
          cases hbeg : download_media_begin sys.app vid now r files t "video" with
          | earlyReturn st1 =>
              rw [hbeg] at hd
              simp only [BeginResult.state] at hd
              dsimp only
              rw [hd]
              exact hmem
          | proceed st1 c =>
              rw [hbeg] at hd
              simp only [BeginResult.state] at hd
              dsimp only
              rw [hd]
              exact hmem
  | taskFinish i outcome =>
      simp only [step]
      cases hg : sys.running.get? i with
      | none => exact hmem
      | some vid => exact download_media_finish_mem _ _ _ _ _ hmem

/-- Witness for C7: the startup event deletes nothing. -/
theorem files_deleted_only_by_clear_witness :
    (⟨"old.mp4", 0⟩ : FileEntry) ∈ (step sysStale Op.startupEvent).app.downloadDir :=
  files_deleted_only_by_clear sysStale Op.startupEvent ⟨"old.mp4", 0⟩ (by decide)
    (fun _vid _api h => nomatch h)

/-- C10 counterexample: `clear("a")` on a store holding artifacts of the
two distinct ids `a` (file `a.mp4`) and `a.b` (file `a.b.mp4`) deletes
both, because the glob `a.*` also matches `a.b.mp4`; the stored file of
the other id `a.b` is not left unchanged. -/
theorem clear_deletes_other_id_artifact :
    stemOf "a.b.mp4" ≠ "a" ∧
    (clear_cache stC10 "a" VALID_API_KEY).2.downloadDir = [] ∧
    (clear_cache stC10 "a" VALID_API_KEY).1 = Response.cleared "a" := by
  refine ⟨by decide, rfl, rfl⟩

/-- C10 (amended): an authorized `clear(id)` removes the status record of
`id` and of no other id, returns a cleared response even when no record
or file existed, and deletes exactly the stored files matching the glob
`id.*` — which can include an artifact of a different id whose stem
extends `id` with a dot. -/
theorem clear_cache_effects (st : AppState) (videoId api : String)
    (hapi : api = VALID_API_KEY) :
    (clear_cache st videoId api).1 = .cleared videoId ∧
    (clear_cache st videoId api).2.download_status videoId = none ∧
    (∀ j, j ≠ videoId →
      (clear_cache st videoId api).2.download_status j = st.download_status j) ∧
    (∀ f, f ∈ (clear_cache st videoId api).2.downloadDir ↔
      f ∈ st.downloadDir ∧ globIdMatches videoId f.name = false) := by
  subst hapi
  unfold clear_cache
  rw [if_neg (by simp)]
  refine ⟨rfl, by simp, ?_, ?_⟩
  · intro j hj
    simp [hj]
  · intro f
    simp [List.mem_filter]

/-- Witness for C10 at a state with a record-free store holding
`vid1.mp4`: the response is cleared and the record for `vid1` is absent
afterwards. -/
theorem clear_cache_effects_witness :
    (clear_cache stC3 "vid1" VALID_API_KEY).1 = Response.cleared "vid1" ∧
    (clear_cache stC3 "vid1" VALID_API_KEY).2.download_status "vid1" = none :=
  ⟨(clear_cache_effects stC3 "vid1" VALID_API_KEY rfl).1,
   (clear_cache_effects stC3 "vid1" VALID_API_KEY rfl).2.1⟩
